import Mathlib

/-!
Verification of `examples/nlp/language_modeling/megatron_gpt_prune.py`
(NeMo pruning example script).

The script's self-authored logic is embedded shallowly:

* `get_calib_data_iter` (source lines 66–71): the calibration batching
  generator, modelled as a pure function from the already-loaded text
  column (a list of Python strings, each modelled as `List Char` so that
  `s[:m]` becomes `List.take m`) to the list of batches it yields.
* `resolve_calib_source` (source lines 56–65): the data-source dispatch
  of `get_calib_data_iter`, separated from the batching because the
  actual dataset download is an external call.
* `merged_config` / `final_model_cfg` (source lines 79–81): the
  checkpoint-config merge in `main`.
* `kv_value` / `correct_pruned_cfg` (source lines 133–139): the
  post-pruning configuration correction in `main`.
* `main_run` (source lines 75 onward): the orchestration control flow of
  `main`, as a trace of abstract steps guarded by the accelerator check.

Python dict-like configurations are modelled as functions
`String → Option CVal`; a key mapped to `none` is absent, `some .vnull`
is present with value `None`.
-/

namespace MegatronGPTPrune

/-- A Python string, modelled as its sequence of characters so that
Python slicing `s[:m]` is `List.take m`. -/
abbrev PyStr := List Char

/-- Source lines 66–67: `calib_size = max(min(len(dataset), calib_size), batch_size)`,
the effective calibration size. -/
def effective_calib_size (dataset_length calib_size batch_size : Nat) : Nat :=
  max (min dataset_length calib_size) batch_size

/-- Source lines 66–71 of `get_calib_data_iter`, applied to the already
loaded text column `dataset`:

```
calib_size = max(min(len(dataset), calib_size), batch_size)
for i in range(calib_size // batch_size):
    batch = dataset[i * batch_size : (i + 1) * batch_size][text_column]
    for j in range(len(batch)):
        batch[j] = batch[j][:max_sequence_length]
    yield batch
```

The Python slice `dataset[a : b]` is `(dataset.drop a).take (b - a)` and
here `b - a = batch_size`; truncation `batch[j][:max_sequence_length]`
is `List.take max_sequence_length`. The generator's yields are collected
into a list (as `main` itself does with `[data for data in data_iter]`). -/
def get_calib_data_iter (dataset : List PyStr)
    (batch_size calib_size max_sequence_length : Nat) : List (List PyStr) :=
  (List.range (effective_calib_size dataset.length calib_size batch_size / batch_size)).map
    (fun i =>
      ((dataset.drop (i * batch_size)).take batch_size).map
        (fun s => s.take max_sequence_length))

/-- Where `get_calib_data_iter` loads its data from: a named dataset on
the hub (dataset name, config name, split, text column) or a local JSON
file (source lines 56–65). -/
inductive DataSource where
  | hub (dataset config split text_column : String)
  | localJson (data_files text_column : String)
deriving DecidableEq

/-- Source lines 56–65 of `get_calib_data_iter`: dispatch on the `data`
argument.

```
if data == "wikitext":
    dataset = load_dataset("wikitext", "wikitext-103-v1", split="train"); text_column = "text"
elif data == "cnn_dailymail":
    dataset = load_dataset("cnn_dailymail", name="3.0.0", split="train"); text_column = "article"
else:
    dataset = load_dataset("json", data_files=data, split="train"); text_column = "text"
``` -/
def resolve_calib_source (data : String) : DataSource :=
  if data = "wikitext" then .hub "wikitext" "wikitext-103-v1" "train" "text"
  else if data = "cnn_dailymail" then .hub "cnn_dailymail" "3.0.0" "train" "article"
  else .localJson data "text"

/-- Whether `resolve_calib_source` treats the identifier as a named hub
dataset (as opposed to a local JSON file path). -/
def is_named_source (data : String) : Bool :=
  match resolve_calib_source data with
  | .hub _ _ _ _ => true
  | .localJson _ _ => false

/-- A value stored in a configuration mapping: a string, an integer, or
Python's `None`. -/
inductive CVal where
  | str (s : String)
  | num (n : Int)
  | vnull
deriving DecidableEq

/-- A Python dict-like configuration: `none` means the key is absent,
`some .vnull` means the key is present with value `None`. -/
def Cfg := String → Option CVal

/-- Dict assignment `c[k] = v`. -/
def set_key (c : Cfg) (k : String) (v : CVal) : Cfg :=
  fun q => if q = k then some v else c q

/-- Source line 80: `model_cfg.update(cfg.model)` — dict update of the
stored checkpoint config with the caller override; a key present in the
override wins, any other key keeps the stored value. -/
def merged_config (stored override : Cfg) : Cfg :=
  fun k =>
    match override k with
    | some v => some v
    | none => stored k

/-- Source lines 79–81: the model config actually used for restoring,
i.e. the merge followed by `model_cfg.name = "modelopt"`. -/
def final_model_cfg (stored override : Cfg) : Cfg :=
  set_key (merged_config stored override) "name" (.str "modelopt")

/-- Source line 133:
`kv_channels = model_cfg["kv_channels"] if "kv_channels" in model_cfg else None`.
An absent key yields Python `None`, i.e. `.vnull`. -/
def kv_lookup (model_cfg : Cfg) : CVal :=
  (model_cfg "kv_channels").getD .vnull

/-- Source lines 133–134: the key-value channel width used by the
post-pruning correction,
`kv_channels = kv_channels if kv_channels is not None else model_cfg.hidden_size // model_cfg.num_attention_heads`.
The derivation needs `hidden_size` and `num_attention_heads` to be
present integers and the divisor nonzero; otherwise the Python attribute
access / division raises, modelled as `none`. Python `//` on ints is
floor division, `Int.fdiv`. -/
def kv_value (model_cfg : Cfg) : Option CVal :=
  match kv_lookup model_cfg with
  | .vnull =>
    match model_cfg "hidden_size", model_cfg "num_attention_heads" with
    | some (.num h), some (.num a) =>
      if a = 0 then none else some (.num (Int.fdiv h a))
    | _, _ => none
  | v => some v

/-- The three pruning target dimensions of the prune request
(`cfg.prune.ffn_hidden_size`, `cfg.prune.num_attention_heads`,
`cfg.prune.num_query_groups`). -/
structure PruneParams where
  ffn_hidden_size : Int
  num_attention_heads : Int
  num_query_groups : Int

/-- Source lines 133–139: the post-pruning configuration correction
applied to `model_pruned.cfg`:

```
kv_channels = model_cfg["kv_channels"] if "kv_channels" in model_cfg else None
kv_channels = kv_channels if kv_channels is not None else model_cfg.hidden_size // model_cfg.num_attention_heads
model_pruned.cfg["ffn_hidden_size"] = cfg.prune.ffn_hidden_size
model_pruned.cfg["num_attention_heads"] = cfg.prune.num_attention_heads
model_pruned.cfg["num_query_groups"] = cfg.prune.num_query_groups
model_pruned.cfg["kv_channels"] = kv_channels
``` -/
def correct_pruned_cfg (pruned_cfg model_cfg : Cfg) (p : PruneParams) : Option Cfg :=
  (kv_value model_cfg).map (fun kv =>
    set_key (set_key (set_key (set_key pruned_cfg
      "ffn_hidden_size" (.num p.ffn_hidden_size))
      "num_attention_heads" (.num p.num_attention_heads))
      "num_query_groups" (.num p.num_query_groups))
      "kv_channels" kv)

/-- The externally visible steps `main` performs, in source order
(lines 79–143). -/
inductive Step where
  | load_config
  | update_model_cfg
  | set_name_modelopt
  | build_trainer
  | restore_model
  | freeze_model
  | build_calib_dataloader
  | prune_model
  | correct_cfg
  | save_model
  | dist_barrier
deriving DecidableEq

/-- The full sequence of steps `main` performs when the accelerator
check passes. -/
def main_steps : List Step :=
  [.load_config, .update_model_cfg, .set_name_modelopt, .build_trainer,
   .restore_model, .freeze_model, .build_calib_dataloader, .prune_model,
   .correct_cfg, .save_model, .dist_barrier]

/-- Source lines 75–76 and onward: the control flow of `main`.
`if not torch.cuda.is_available(): raise EnvironmentError("GPU is required for the pruning.")`
is the first statement of `main`, before any of the steps in
`main_steps`; there is no other branch in `main`. -/
def main_run (cuda_available : Bool) : Except String (List Step) :=
  if cuda_available then .ok main_steps
  else .error "GPU is required for the pruning."

/-! ### Concrete fixtures used to instantiate the theorems -/

/-- A concrete five-string dataset (text column already extracted). -/
def ds0 : List PyStr := [['a'], ['b'], ['c'], ['d'], ['e']]

/-- A concrete stored checkpoint configuration. -/
def stored0 : Cfg :=
  fun k =>
    if k = "name" then some (.str "megatron_gpt") else
    if k = "hidden_size" then some (.num 16) else
    none

/-- A concrete caller override configuration. -/
def override0 : Cfg :=
  fun k => if k = "hidden_size" then some (.num 32) else none

/-- A concrete pruned-model configuration before the post-prune
correction. -/
def pruned0 : Cfg :=
  fun k => if k = "other_field" then some (.num 7) else none

/-- A concrete merged model configuration in which the `kv_channels` key
is absent. -/
def cm0 : Cfg :=
  fun k =>
    if k = "hidden_size" then some (.num 16) else
    if k = "num_attention_heads" then some (.num 4) else
    none

/-- A concrete merged model configuration in which the `kv_channels` key
is present with value `None`. -/
def cm1 : Cfg :=
  fun k =>
    if k = "kv_channels" then some .vnull else
    if k = "hidden_size" then some (.num 16) else
    if k = "num_attention_heads" then some (.num 4) else
    none

/-- A concrete prune request. -/
def p0 : PruneParams := ⟨128, 8, 2⟩

/-- A second concrete prune request, differing from `p0` in every
field. -/
def p1 : PruneParams := ⟨256, 16, 4⟩

/-- The configuration obtained by applying the post-prune correction to
`pruned0` with merged config `cm0` and request `p0`; spelled out so that
`correct_pruned_cfg pruned0 cm0 p0 = some cfg_once0` holds by `rfl`. -/
def cfg_once0 : Cfg :=
  set_key (set_key (set_key (set_key pruned0
    "ffn_hidden_size" (.num 128))
    "num_attention_heads" (.num 8))
    "num_query_groups" (.num 2))
    "kv_channels" (.num 4)

/-! ### Helper lemmas -/

/-- The effective calibration size never exceeds the dataset length when
the dataset holds at least one full batch. -/
theorem effective_calib_size_le (L R B : Nat) (hBL : B ≤ L) :
    effective_calib_size L R B ≤ L := by
  unfold effective_calib_size
  exact max_le (le_trans (Nat.min_le_left L R) le_rfl) hBL

/-- Every batch yielded by `get_calib_data_iter` arises from an index
below the batch count. -/
theorem mem_get_calib_data_iter {dataset : List PyStr} {B R m : Nat}
    {b : List PyStr} (hb : b ∈ get_calib_data_iter dataset B R m) :
    ∃ i < effective_calib_size dataset.length R B / B,
      b = ((dataset.drop (i * B)).take B).map (fun s => s.take m) := by
  unfold get_calib_data_iter at hb
  rcases List.mem_map.mp hb with ⟨i, hi, rfl⟩
  exact ⟨i, List.mem_range.mp hi, rfl⟩

/-- Identifiers resolving to a named hub dataset are exactly the two
literals of the source's `if`/`elif`. -/
theorem named_source_cases (s : String) (hs : is_named_source s = true) :
    s = "wikitext" ∨ s = "cnn_dailymail" := by
  by_cases h1 : s = "wikitext"
  · exact Or.inl h1
  · by_cases h2 : s = "cnn_dailymail"
    · exact Or.inr h2
    · exfalso
      simp only [is_named_source, resolve_calib_source, h1, h2, if_false] at hs
      exact Bool.false_ne_true hs

/-- When the dataset holds at least one full batch, every batch produced
at an index below the batch count is full. -/
theorem calib_batch_length (dataset : List PyStr) (B R m i : Nat)
    (hi : i < effective_calib_size dataset.length R B / B)
    (hBL : B ≤ dataset.length) :
    (((dataset.drop (i * B)).take B).map (fun s => s.take m)).length = B := by
  have hE : effective_calib_size dataset.length R B ≤ dataset.length :=
    effective_calib_size_le _ _ _ hBL
  have h1 : (i + 1) * B ≤ effective_calib_size dataset.length R B :=
    le_trans (Nat.mul_le_mul_right B (Nat.succ_le_of_lt hi))
      (Nat.div_mul_le_self _ B)
  have h2 : i * B + B ≤ dataset.length := by
    have : i * B + B = (i + 1) * B := by ring
    omega
  simp only [List.length_map, List.length_take, List.length_drop]
  omega

/-! ### Claim theorems -/

/-- C1: for every dataset of length `L`, batch size `B ≥ 1` and
requested calibration size `R`, `get_calib_data_iter` yields exactly
`⌊E / B⌋` batches where `E = max (min L R) B`; when `L ≥ B` every
yielded batch contains exactly `B` strings, and in particular when
`R < B` and `L ≥ B` it still yields one full batch of `B` strings. -/
theorem get_calib_data_iter_batch_count (dataset : List PyStr) (B R m : Nat)
    (hB : 1 ≤ B) :
    (get_calib_data_iter dataset B R m).length
      = effective_calib_size dataset.length R B / B
    ∧ (B ≤ dataset.length →
        (get_calib_data_iter dataset B R m).map List.length
          = List.replicate (effective_calib_size dataset.length R B / B) B)
    ∧ (R < B → B ≤ dataset.length →
        (get_calib_data_iter dataset B R m).map List.length = [B]) := by
  have hcount : (get_calib_data_iter dataset B R m).length
      = effective_calib_size dataset.length R B / B := by
    simp [get_calib_data_iter]
  refine ⟨hcount, fun hBL => ?_, fun hRB hBL => ?_⟩
  · have hlen : ((get_calib_data_iter dataset B R m).map List.length).length
        = effective_calib_size dataset.length R B / B := by
      rw [List.length_map]; exact hcount
    have hmem : ∀ x ∈ (get_calib_data_iter dataset B R m).map List.length, x = B := by
      intro x hx
      rcases List.mem_map.mp hx with ⟨b, hb, rfl⟩
      rcases mem_get_calib_data_iter hb with ⟨i, hi, rfl⟩
      exact calib_batch_length dataset B R m i hi hBL
    rw [← hlen]
    exact List.eq_replicate_of_mem hmem
  · have hE : effective_calib_size dataset.length R B = B := by
      unfold effective_calib_size; omega
    have hdiv : effective_calib_size dataset.length R B / B = 1 := by
      rw [hE]; exact Nat.div_self hB
    have h0 : (((dataset.drop (0 * B)).take B).map (fun s => s.take m)).length = B :=
      calib_batch_length dataset B R m 0 (by omega) hBL
    have hr1 : List.range 1 = [0] := by decide
    unfold get_calib_data_iter
    rw [hdiv, hr1]
    simp only [List.map_cons, List.map_nil]
    rw [h0]

/-- Witness for C1 at `L = 5`, `B = 2`, `R = 1`, `m = 1`. -/
theorem get_calib_data_iter_batch_count_witness :
    (get_calib_data_iter ds0 2 1 1).length
      = effective_calib_size ds0.length 1 2 / 2
    ∧ (get_calib_data_iter ds0 2 1 1).map List.length
        = List.replicate (effective_calib_size ds0.length 1 2 / 2) 2
    ∧ (get_calib_data_iter ds0 2 1 1).map List.length = [2] := by
  have h := get_calib_data_iter_batch_count ds0 2 1 1 (by decide)
  exact ⟨h.1, h.2.1 (by decide), h.2.2 (by decide) (by decide)⟩

/-- C2: every string in every batch yielded by `get_calib_data_iter` has
length at most `max_sequence_length`. -/
theorem get_calib_data_iter_truncates (dataset : List PyStr) (B R m : Nat)
    (b : List PyStr) (s : PyStr)
    (hb : b ∈ get_calib_data_iter dataset B R m) (hs : s ∈ b) :
    s.length ≤ m := by
  rcases mem_get_calib_data_iter hb with ⟨i, _, rfl⟩
  rcases List.mem_map.mp hs with ⟨t, _, rfl⟩
  exact List.length_take_le m t

/-- Witness for C2: the first batch of a concrete run, one of its
strings, and the length bound. -/
theorem get_calib_data_iter_truncates_witness :
    [['a'], ['b']] ∈ get_calib_data_iter ds0 2 4 1
    ∧ ['a'] ∈ ([['a'], ['b']] : List PyStr)
    ∧ List.length ['a'] ≤ 1 := by
  refine ⟨by decide, by decide, ?_⟩
  exact get_calib_data_iter_truncates ds0 2 4 1 [['a'], ['b']] ['a']
    (by decide) (by decide)

/-- C10: when the dataset is strictly shorter than one batch,
`get_calib_data_iter` yields exactly one batch holding all dataset
strings, each truncated. -/
theorem get_calib_data_iter_short_dataset (dataset : List PyStr) (B R m : Nat)
    (hL : dataset.length < B) :
    get_calib_data_iter dataset B R m = [dataset.map (fun s => s.take m)] := by
  have hB : 0 < B := lt_of_le_of_lt (Nat.zero_le _) hL
  have hE : effective_calib_size dataset.length R B = B := by
    unfold effective_calib_size; omega
  have hr1 : List.range 1 = [0] := by decide
  unfold get_calib_data_iter
  rw [hE, Nat.div_self hB, hr1]
  simp only [List.map_cons, List.map_nil, Nat.zero_mul, List.drop_zero]
  rw [List.take_of_length_le (le_of_lt hL)]

/-- Witness for C10 at `L = 1 < B = 3`. -/
theorem get_calib_data_iter_short_dataset_witness :
    get_calib_data_iter [(['a', 'b'] : PyStr)] 3 7 1 = [[['a']]] := by
  have h := get_calib_data_iter_short_dataset [(['a', 'b'] : PyStr)] 3 7 1 (by decide)
  exact h.trans (by decide)

/-- C7: batch `i` consists exactly of the dataset elements at positions
`i * B`, …, `(i + 1) * B - 1` (each truncated), so batches are pairwise
disjoint segments drawn in order from the head of the dataset, and batch
`i` has length `min B (L - i * B)`. -/
theorem get_calib_data_iter_positions (dataset : List PyStr) (B R m i j : Nat)
    (hi : i < (get_calib_data_iter dataset B R m).length) (hj : j < B) :
    ((get_calib_data_iter dataset B R m)[i]?.bind fun b => b[j]?)
        = (dataset[i * B + j]?).map (fun s => s.take m)
    ∧ ((get_calib_data_iter dataset B R m)[i]?.map List.length)
        = some (min B (dataset.length - i * B)) := by
  have hi' : i < effective_calib_size dataset.length R B / B := by
    have hlen : (get_calib_data_iter dataset B R m).length
        = effective_calib_size dataset.length R B / B := by
      simp [get_calib_data_iter]
    omega
  have hgi : (get_calib_data_iter dataset B R m)[i]?
      = some (((dataset.drop (i * B)).take B).map (fun s => s.take m)) := by
    unfold get_calib_data_iter
    rw [List.getElem?_map, List.getElem?_range hi']
    rfl
  constructor
  · rw [hgi, Option.some_bind]
    rw [List.getElem?_map, List.getElem?_take_of_lt hj, List.getElem?_drop]
  · rw [hgi, Option.map_some']
    simp [List.length_take, List.length_drop]

/-- Witness for C7 at `L = 5`, `B = 2`, `R = 4`, `i = 1`, `j = 0`:
the second batch's first string is dataset element `2`. -/
theorem get_calib_data_iter_positions_witness :
    ((get_calib_data_iter ds0 2 4 1)[1]?.bind fun b => b[0]?)
        = (ds0[1 * 2 + 0]?).map (fun s => s.take 1)
    ∧ ((get_calib_data_iter ds0 2 4 1)[1]?.map List.length)
        = some (min 2 (ds0.length - 1 * 2)) :=
  get_calib_data_iter_positions ds0 2 4 1 1 0 (by decide) (by decide)

/-- C5: the merged model configuration takes the override's value at
every key the override holds, the final configuration's `name` is forced
to `"modelopt"` afterwards, and no other key is changed by that
forcing. -/
theorem merged_config_override_precedence (stored override : Cfg) :
    (∀ k v, override k = some v → merged_config stored override k = some v)
    ∧ final_model_cfg stored override "name" = some (.str "modelopt")
    ∧ (∀ k, k ≠ "name" →
        final_model_cfg stored override k = merged_config stored override k) := by
  refine ⟨fun k v h => ?_, ?_, fun k hk => ?_⟩
  · simp [merged_config, h]
  · simp [final_model_cfg, set_key]
  · simp [final_model_cfg, set_key, hk]

/-- Witness for C5 on concrete stored/override configurations. -/
theorem merged_config_override_precedence_witness :
    merged_config stored0 override0 "hidden_size" = some (.num 32)
    ∧ final_model_cfg stored0 override0 "name" = some (.str "modelopt")
    ∧ final_model_cfg stored0 override0 "hidden_size"
        = merged_config stored0 override0 "hidden_size" := by
  have h := merged_config_override_precedence stored0 override0
  exact ⟨h.1 "hidden_size" (.num 32) rfl, h.2.1, h.2.2 "hidden_size" (by decide)⟩

/-- C6: the post-prune configuration correction is idempotent — applying
it a second time with the same merged config and prune request succeeds
and changes no field. -/
theorem correct_pruned_cfg_idempotent (pruned model_cfg : Cfg) (p : PruneParams)
    (c₁ : Cfg) (h : correct_pruned_cfg pruned model_cfg p = some c₁) (k : String) :
    (correct_pruned_cfg c₁ model_cfg p).map (fun c => c k) = some (c₁ k) := by
  unfold correct_pruned_cfg at h ⊢
  cases hkv : kv_value model_cfg with
  | none => rw [hkv] at h; simp at h
  | some kv =>
    rw [hkv] at h
    simp only [Option.map_some'] at h ⊢
    injection h with h
    subst h
    simp only [set_key]
    split_ifs <;> rfl

/-- Witness for C6: the correction applied twice on a concrete
configuration agrees with the single application at `kv_channels`. -/
theorem correct_pruned_cfg_idempotent_witness :
    (correct_pruned_cfg cfg_once0 cm0 p0).map (fun c => c "kv_channels")
      = some (cfg_once0 "kv_channels") :=
  correct_pruned_cfg_idempotent pruned0 cm0 p0 cfg_once0 rfl "kv_channels"

/-- C3 counterexample: with `kv_channels` present in the merged config
with value `None`, the derived value `hidden_size // num_attention_heads
= 16 // 4 = 4` is still computed and written, so the derivation is not
restricted to the key being absent. -/
theorem correct_pruned_cfg_kv_present_null :
    cm1 "kv_channels" = some CVal.vnull
    ∧ (correct_pruned_cfg pruned0 cm1 p0).map (fun c => c "kv_channels")
        = some (some (CVal.num 4))
    ∧ (decide (some (CVal.num 4) = cm1 "kv_channels")) = false := by
  refine ⟨by decide, ?_, by decide⟩
  decide

/-- C3 amended: after the correction, the three requested fields hold
the prune request's values, `kv_channels` holds the value of source
lines 133–134 (the stored value when present and non-`None`, the derived
`hidden_size // num_attention_heads` when absent or `None`), and every
other key is unchanged. -/
theorem correct_pruned_cfg_overwrites (pruned model_cfg : Cfg) (p : PruneParams)
    (c₂ : Cfg) (h : correct_pruned_cfg pruned model_cfg p = some c₂) :
    c₂ "ffn_hidden_size" = some (.num p.ffn_hidden_size)
    ∧ c₂ "num_attention_heads" = some (.num p.num_attention_heads)
    ∧ c₂ "num_query_groups" = some (.num p.num_query_groups)
    ∧ some (c₂ "kv_channels") = (kv_value model_cfg).map some
    ∧ ∀ k, k ≠ "ffn_hidden_size" → k ≠ "num_attention_heads" →
        k ≠ "num_query_groups" → k ≠ "kv_channels" → c₂ k = pruned k := by
  unfold correct_pruned_cfg at h
  cases hkv : kv_value model_cfg with
  | none => rw [hkv] at h; simp at h
  | some kv =>
    rw [hkv] at h
    rw [Option.map_some'] at h
    injection h with h
    subst h
    refine ⟨?_, ?_, ?_, ?_, fun k h1 h2 h3 h4 => ?_⟩
    · simp [set_key]
    · simp [set_key]
    · simp [set_key]
    · simp [set_key]
    · simp [set_key, h1, h2, h3, h4]

/-- Witness for C3's amended claim on a concrete configuration. -/
theorem correct_pruned_cfg_overwrites_witness :
    cfg_once0 "ffn_hidden_size" = some (.num 128)
    ∧ cfg_once0 "num_attention_heads" = some (.num 8)
    ∧ cfg_once0 "num_query_groups" = some (.num 2)
    ∧ some (cfg_once0 "kv_channels") = (kv_value cm0).map some
    ∧ cfg_once0 "other_field" = pruned0 "other_field" := by
  have h := correct_pruned_cfg_overwrites pruned0 cm0 p0 cfg_once0 rfl
  exact ⟨h.1, h.2.1, h.2.2.1, h.2.2.2.1,
    h.2.2.2.2 "other_field" (by decide) (by decide) (by decide) (by decide)⟩

/-- C9: the derived `kv_channels` value is used both when the key is
absent and when it is present with value `None`, and it is computed from
the merged configuration's `hidden_size` and `num_attention_heads` —
the prune request plays no role in it. -/
theorem kv_value_derivation (model_cfg : Cfg) (n a : Int)
    (hkv : model_cfg "kv_channels" = none ∨ model_cfg "kv_channels" = some .vnull)
    (hh : model_cfg "hidden_size" = some (.num n))
    (hha : model_cfg "num_attention_heads" = some (.num a))
    (ha0 : a ≠ 0) :
    kv_value model_cfg = some (.num (Int.fdiv n a))
    ∧ ∀ (pruned : Cfg) (p q : PruneParams),
        (correct_pruned_cfg pruned model_cfg p).map (fun c => c "kv_channels")
          = (correct_pruned_cfg pruned model_cfg q).map (fun c => c "kv_channels") := by
  have hlook : kv_lookup model_cfg = .vnull := by
    rcases hkv with h | h <;> simp [kv_lookup, h]
  have h1 : kv_value model_cfg = some (.num (Int.fdiv n a)) := by
    unfold kv_value
    rw [hlook, hh, hha]
    simp [ha0]
  refine ⟨h1, fun pruned p q => ?_⟩
  unfold correct_pruned_cfg
  rw [h1]
  simp [set_key]

/-- Witness for C9 at `cm1` (where `kv_channels` is present with value
`None`), with two different prune requests. -/
theorem kv_value_derivation_witness :
    kv_value cm1 = some (CVal.num (Int.fdiv 16 4))
    ∧ (correct_pruned_cfg pruned0 cm1 p0).map (fun c => c "kv_channels")
        = (correct_pruned_cfg pruned0 cm1 p1).map (fun c => c "kv_channels") := by
  have h := kv_value_derivation cm1 16 4 (Or.inr (by decide)) (by decide)
    (by decide) (by decide)
  exact ⟨h.1, h.2 pruned0 p0 p1⟩

/-- C4 counterexample: the identifiers resolved to a fixed hub dataset
selection number exactly two, not three. -/
theorem resolve_calib_source_two_named :
    Nat.card {s : String // is_named_source s = true} = 2
    ∧ Nat.card {s : String // is_named_source s = true} ≠ 3 := by
  have h2 : Nat.card {s : String // is_named_source s = true} = 2 := by
    rw [Nat.card_eq_two_iff]
    refine ⟨⟨"wikitext", by decide⟩, ⟨"cnn_dailymail", by decide⟩, ?_, ?_⟩
    · intro hcon
      have : "wikitext" = "cnn_dailymail" := congrArg Subtype.val hcon
      simp at this
    · ext x
      simp only [Set.mem_insert_iff, Set.mem_singleton_iff, Set.mem_univ, iff_true]
      rcases named_source_cases x.1 x.2 with h | h
      · exact Or.inl (Subtype.ext h)
      · exact Or.inr (Subtype.ext h)
  exact ⟨h2, by omega⟩

/-- C4 amended: exactly two named identifiers, `"wikitext"` and
`"cnn_dailymail"`, map to fixed dataset+config+split+column selections;
every other identifier is treated as a local JSON file path with text
column `"text"`. -/
theorem resolve_calib_source_dispatch (s : String) :
    (is_named_source s = true ↔ (s = "wikitext" ∨ s = "cnn_dailymail"))
    ∧ resolve_calib_source "wikitext"
        = .hub "wikitext" "wikitext-103-v1" "train" "text"
    ∧ resolve_calib_source "cnn_dailymail"
        = .hub "cnn_dailymail" "3.0.0" "train" "article"
    ∧ (s ≠ "wikitext" → s ≠ "cnn_dailymail" →
        resolve_calib_source s = .localJson s "text") := by
  refine ⟨⟨named_source_cases s, ?_⟩, by decide, by decide, fun h1 h2 => ?_⟩
  · rintro (rfl | rfl) <;> decide
  · simp [resolve_calib_source, h1, h2]

/-- Witness for C4's amended claim at the identifier `"my_data.json"`. -/
theorem resolve_calib_source_dispatch_witness :
    (is_named_source "my_data.json" = true
      ↔ ("my_data.json" = "wikitext" ∨ "my_data.json" = "cnn_dailymail"))
    ∧ resolve_calib_source "wikitext"
        = .hub "wikitext" "wikitext-103-v1" "train" "text"
    ∧ resolve_calib_source "cnn_dailymail"
        = .hub "cnn_dailymail" "3.0.0" "train" "article"
    ∧ resolve_calib_source "my_data.json" = .localJson "my_data.json" "text" := by
  have h := resolve_calib_source_dispatch "my_data.json"
  exact ⟨h.1, h.2.1, h.2.2.1, h.2.2.2 (by decide) (by decide)⟩

/-- C8: when no accelerator is available `main` stops with the
environment error `"GPU is required for the pruning."` and performs none
of its steps; when the accelerator is available it performs the full
step sequence with no further check that could fail. -/
theorem main_run_gpu_check :
    main_run false = .error "GPU is required for the pruning."
    ∧ main_run true = .ok main_steps :=
  ⟨rfl, rfl⟩

end MegatronGPTPrune
